import Mathlib

/-!
Verification of the visitor-info logic of `src/pages/Contact.tsx` and the
helpers it uses from `src/utils/helpers.ts` (`formatTime`, `randomInRange`).

The hook `useVisitorInfo` is embedded as an explicit state machine:
`activate` models the initial render plus the two mount effects
(geolocation effect and timer effect); `step` models the three events that
can occur afterwards (the in-flight lookup resolving, a timer tick, and
deactivation/unmount); `run` folds a list of events.  A step returning
`Except.error` models an exception escaping the hook's own handlers.

Platform primitives are modelled by an environment `Env`:
`Intl.DateTimeFormat(undefined, opts)` resolves the local timezone to the
offset `localOffset` (minutes) and, for an explicit `timeZone` option,
consults the IANA database `tzdb`, throwing a `RangeError` on an unknown
identifier; `Math.random` is an arbitrary rational in `[0, 1)` supplied as
a parameter.
-/

namespace VisitorHook

/-- JavaScript `a || b` on an optional string: `undefined`, `null` and the
empty string are falsy and select the default. -/
def jsOr (v : Option String) (default : String) : String :=
  match v with
  | none => default
  | some s => if s = "" then default else s

/-- JavaScript truthiness of an `undefined | boolean` value
(`undefined` is falsy). -/
def truthy : Option Bool → Bool
  | none => false
  | some b => b

/-- `VisitorLocation` from `src/types/index.ts`. -/
structure VisitorLocation where
  city : String
  country : String
  countryCode : String
  region : String
  timezone : String
deriving DecidableEq

/-- The JSON body returned by the geolocation endpoint: the fields
`fetchGeoLocation` reads, each possibly absent. -/
structure GeoResponse where
  city : Option String
  country_name : Option String
  country_code : Option String
  region : Option String
  timezone : Option String
deriving DecidableEq

/-- Outcome of the outbound `fetch` of `fetchGeoLocation`: the promise
rejects, the response has a non-success status (`!response.ok`), the body
fails to parse, or a JSON object is obtained. -/
inductive FetchOutcome where
  | networkError
  | httpError (status : Nat)
  | parseError
  | success (data : GeoResponse)
deriving DecidableEq

/-- Whether the outcome is one of the three failure modes. -/
def FetchOutcome.failed : FetchOutcome → Bool
  | .success _ => false
  | _ => true

/-- Platform environment: the system's local IANA timezone name and its
offset in minutes, and the timezone database consulted when an explicit
`timeZone` option is passed to `Intl.DateTimeFormat` (`none` models an
invalid identifier, on which the constructor throws a `RangeError`). -/
structure Env where
  localTimezone : String
  localOffset : Int
  tzdb : String → Option Int

/-- `fetchGeoLocation` from `Contact.tsx`.  The whole body is wrapped in
`try/catch`, so every failure mode collapses to `null`; on success each
field falls back through `||`, the timezone falling back to
`Intl.DateTimeFormat().resolvedOptions().timeZone`. -/
def fetchGeoLocation (env : Env) (outcome : FetchOutcome) : Option VisitorLocation :=
  match outcome with
  | .success data =>
      some {
        city := jsOr data.city "Unknown",
        country := jsOr data.country_name "Unknown",
        countryCode := jsOr data.country_code "XX",
        region := jsOr data.region "",
        timezone := jsOr data.timezone env.localTimezone }
  | _ => none

/-- Two-digit zero padding, as `Intl.DateTimeFormat` renders `2-digit`
fields. -/
def pad2 (n : Nat) : String :=
  if n < 10 then "0" ++ toString n else toString n

/-- Rendering of a 12-hour clock reading `hh:mm:ss AM/PM`. -/
def render12h (h m s : Nat) (pm : Bool) : String :=
  pad2 h ++ ":" ++ pad2 m ++ ":" ++ pad2 s ++ (if pm then " PM" else " AM")

/-- `Intl.DateTimeFormat` with `hour/minute/second: 2-digit, hour12: true`
applied to an instant given as seconds of the day. -/
def format12h (secs : Nat) : String :=
  let x := secs % 86400
  let h24 := x / 3600
  let m := x % 3600 / 60
  let s := x % 60
  render12h (if h24 % 12 = 0 then 12 else h24 % 12) m s (decide (12 ≤ h24))

/-- Seconds-of-day of UTC instant `now` (seconds) shifted by a timezone
offset of `off` minutes. -/
def fmtAt (off : Int) (now : Nat) : Nat :=
  (((now : Int) + off * 60) % 86400).toNat

/-- `formatTime` from `src/utils/helpers.ts` at UTC instant `now`.  The
options spread `...(timezone && \x7b timeZone: timezone \x7d)` omits the
`timeZone` option when `timezone` is `undefined` or empty, so formatting
then uses the local timezone and cannot throw; an explicit timezone is
resolved through the database and an unknown identifier makes the
`Intl.DateTimeFormat` constructor throw a `RangeError`. -/
def formatTime (env : Env) (now : Nat) (timezone : Option String) : Except String String :=
  match timezone with
  | none => .ok (format12h (fmtAt env.localOffset now))
  | some tz =>
      if tz = "" then .ok (format12h (fmtAt env.localOffset now))
      else
        match env.tzdb tz with
        | some off => .ok (format12h (fmtAt off now))
        | none => .error ("Invalid time zone specified: " ++ tz)

/-- `randomInRange` from `src/utils/helpers.ts`:
`Math.floor(Math.random() * (max - min + 1)) + min`, with `Math.random`'s
result supplied as `r`. -/
def randomInRange (min max : Int) (r : ℚ) : Int :=
  ⌊r * ((max : ℚ) - (min : ℚ) + 1)⌋ + min

/-- `generateVisitorCount` from `Contact.tsx`: base 1247 plus
`randomInRange 0 50`. -/
def generateVisitorCount (r : ℚ) : Int :=
  let baseCount : Int := 1247
  let variation := randomInRange 0 50 r
  baseCount + variation

/-- Merged configuration: each option either `undefined` or a value
(`Option` models possible `undefined`). -/
structure Config where
  autoUpdateTime : Option Bool
  timeUpdateInterval : Option Nat
  fetchLocation : Option Bool
deriving DecidableEq

/-- `DEFAULT_OPTIONS` from `Contact.tsx` (all three keys present). -/
def DEFAULT_OPTIONS : Config :=
  { autoUpdateTime := some true, timeUpdateInterval := some 1000, fetchLocation := some true }

/-- An options object passed by the caller: each recognized key may be
absent (outer `none`) or present with a value that may itself be the
explicit `undefined` (inner `none`). -/
structure OptionsObj where
  autoUpdateTime : Option (Option Bool)
  timeUpdateInterval : Option (Option Nat)
  fetchLocation : Option (Option Bool)
deriving DecidableEq

/-- The object-spread merge `\x7b ...DEFAULT_OPTIONS, ...options \x7d`: a key
present on `options` — even with value `undefined` — overrides the
default; an absent key keeps the default. -/
def mergeOptions (options : OptionsObj) : Config :=
  { autoUpdateTime := options.autoUpdateTime.getD DEFAULT_OPTIONS.autoUpdateTime,
    timeUpdateInterval := options.timeUpdateInterval.getD DEFAULT_OPTIONS.timeUpdateInterval,
    fetchLocation := options.fetchLocation.getD DEFAULT_OPTIONS.fetchLocation }

/-- State of one activation of `useVisitorInfo`: the five snapshot fields,
the `isMounted` liveness flag of the geolocation effect, whether a fetch
was issued and is still unresolved, and whether/with which period the
`setInterval` timer is installed. -/
structure HookState where
  visitorCount : Int
  location : Option VisitorLocation
  currentTime : String
  isLoading : Bool
  error : Option String
  isMounted : Bool
  lookupInFlight : Bool
  timerOn : Bool
  timerDelay : Option Nat
deriving DecidableEq

/-- The caller-observable snapshot: the object returned by the hook. -/
structure Snapshot where
  visitorCount : Int
  location : Option VisitorLocation
  currentTime : String
  isLoading : Bool
  error : Option String
deriving DecidableEq

/-- Projection of the hook state onto the observable snapshot. -/
def snapshot (s : HookState) : Snapshot :=
  { visitorCount := s.visitorCount, location := s.location,
    currentTime := s.currentTime, isLoading := s.isLoading, error := s.error }

/-- State after the initial render: `useState` initialisers, with the
visitor count computed once from the supplied random sample. -/
def initialState (r : ℚ) : HookState :=
  { visitorCount := generateVisitorCount r, location := none, currentTime := "",
    isLoading := true, error := none, isMounted := true,
    lookupInFlight := false, timerOn := false, timerDelay := none }

/-- The geolocation effect body at mount: with `fetchLocation` falsy it
sets `isLoading` false and returns without fetching; otherwise it starts
`fetchData` (one outbound request now in flight). -/
def geoEffect (cfg : Config) (s : HookState) : HookState :=
  if truthy cfg.fetchLocation = false then { s with isLoading := false }
  else { s with lookupInFlight := true }

/-- The timer effect body at mount: with `autoUpdateTime` falsy it returns
early; otherwise it calls `updateTime(location?.timezone)` immediately and
installs the interval with period `config.timeUpdateInterval`. -/
def timerEffect (env : Env) (cfg : Config) (now : Nat) (s : HookState) :
    Except String HookState :=
  if truthy cfg.autoUpdateTime = false then .ok s
  else
    match formatTime env now (s.location.map VisitorLocation.timezone) with
    | .ok t => .ok { s with currentTime := t, timerOn := true,
                            timerDelay := cfg.timeUpdateInterval }
    | .error e => .error e

/-- Activation: initial render followed by the two mount effects, at UTC
instant `now` and with `Math.random` sample `r`. -/
def activate (env : Env) (cfg : Config) (r : ℚ) (now : Nat) : Except String HookState :=
  timerEffect env cfg now (geoEffect cfg (initialState r))

/-- The continuation of `fetchData` after `await fetchGeoLocation()`
settles (it never rejects: its body is fully wrapped in `try/catch`).
Every state mutation is guarded by `isMounted`.  On a parsed location,
`setLocation` runs, then `updateTime(location.timezone)` inside the `try`;
if that throws (invalid timezone identifier) the `catch` sets the error
message and re-formats with the local timezone; the `finally` clears
`isLoading`.  On `null` the `try` falls back to the local timezone and
clears the error. -/
def fetchDataResolve (env : Env) (now : Nat) (outcome : FetchOutcome) (s : HookState) :
    Except String HookState :=
  if s.isMounted = false then .ok s
  else
    match fetchGeoLocation env outcome with
    | some loc =>
        match formatTime env now (some loc.timezone) with
        | .ok t =>
            .ok { s with location := some loc, currentTime := t,
                         error := none, isLoading := false }
        | .error _ =>
            match formatTime env now none with
            | .ok t =>
                .ok { s with location := some loc, currentTime := t,
                             error := some "Failed to load location data",
                             isLoading := false }
            | .error e => .error e
    | none =>
        match formatTime env now none with
        | .ok t => .ok { s with currentTime := t, error := none, isLoading := false }
        | .error e => .error e

/-- Events that can reach an activation after mount: the in-flight lookup
settling with some outcome, a tick of the interval timer, and
deactivation (unmount). -/
inductive Event where
  | lookupResolves (outcome : FetchOutcome) (now : Nat)
  | timerTick (now : Nat)
  | deactivate
deriving DecidableEq

/-- The effect cleanups at unmount: the geolocation effect's cleanup sets
`isMounted := false`; the timer effect's cleanup calls `clearInterval`. -/
def stepDeactivate (s : HookState) : HookState :=
  { s with isMounted := false, timerOn := false, timerDelay := none }

/-- One event step.  A lookup resolution is only possible while a fetch is
in flight.  A timer tick runs `updateTime(location?.timezone)` with no
handler around it, so a formatting exception escapes (`Except.error`). -/
def step (env : Env) (s : HookState) : Event → Except String HookState
  | .lookupResolves outcome now =>
      if s.lookupInFlight = false then .ok s
      else fetchDataResolve env now outcome { s with lookupInFlight := false }
  | .timerTick now =>
      if s.timerOn = false then .ok s
      else
        match formatTime env now (s.location.map VisitorLocation.timezone) with
        | .ok t => .ok { s with currentTime := t }
        | .error e => .error e
  | .deactivate => .ok (stepDeactivate s)

/-- Folding a list of events from a state; stops at the first escaping
exception. -/
def run (env : Env) (s : HookState) : List Event → Except String HookState
  | [] => .ok s
  | e :: es =>
      match step env s e with
      | .ok s' => run env s' es
      | .error msg => .error msg

/-- A string is a well-formed 12-hour `hh:mm:ss AM/PM` clock reading. -/
def isValid12h (str : String) : Prop :=
  ∃ h m s pm, 1 ≤ h ∧ h ≤ 12 ∧ m < 60 ∧ s < 60 ∧ str = render12h h m s pm

/-- The string is a local-timezone clock reading of some instant. -/
def localShaped (env : Env) (str : String) : Prop :=
  ∃ t, str = format12h (fmtAt env.localOffset t)

/-- Invariant relating `isLoading`, `location` and `currentTime`:
once loading has finished the clock string is well formed, and while no
location is known the clock string is empty or local-timezone shaped. -/
def goodTime (env : Env) (s : HookState) : Prop :=
  (s.isLoading = false → isValid12h s.currentTime) ∧
  (s.location = none → s.currentTime = "" ∨ localShaped env s.currentTime)

/-! Concrete fixtures used by counterexamples and witnesses. -/

/-- A small timezone database for concrete runs. -/
def testTzdb : String → Option Int := fun tz =>
  if tz = "UTC" then some 0
  else if tz = "Europe/Paris" then some 120
  else none

/-- A concrete environment: UTC local timezone. -/
def testEnv : Env :=
  { localTimezone := "UTC", localOffset := 0, tzdb := testTzdb }

/-- The caller passes no options object. -/
def noOpts : OptionsObj := { autoUpdateTime := none, timeUpdateInterval := none, fetchLocation := none }

/-- The response of the Paris scenario. -/
def parisResp : GeoResponse :=
  { city := some "Paris", country_name := some "France", country_code := some "FR",
    region := some "IDF", timezone := some "Europe/Paris" }

/-- The location the Paris scenario should produce. -/
def parisLoc : VisitorLocation :=
  { city := "Paris", country := "France", countryCode := "FR",
    region := "IDF", timezone := "Europe/Paris" }

/-- A response with `region` and `timezone` absent. -/
def noRegionResp : GeoResponse :=
  { city := some "A", country_name := some "B", country_code := some "C",
    region := none, timezone := none }

/-- A successful response carrying an invalid timezone identifier. -/
def badTzResp : GeoResponse :=
  { city := some "X", country_name := none, country_code := none,
    region := none, timezone := some "Mars/Olympus" }

/-- The state right after `activate testEnv (mergeOptions noOpts) 0 0`. -/
def mountedState : HookState :=
  { visitorCount := generateVisitorCount 0, location := none, currentTime := "12:00:00 AM",
    isLoading := true, error := none, isMounted := true,
    lookupInFlight := true, timerOn := true, timerDelay := some 1000 }

/-- `mountedState` after the lookup fails at instant 5. -/
def failedState : HookState :=
  { visitorCount := generateVisitorCount 0, location := none, currentTime := "12:00:05 AM",
    isLoading := false, error := none, isMounted := true,
    lookupInFlight := false, timerOn := true, timerDelay := some 1000 }

/-- A default activation whose lookup fails with a network error. -/
def failRun : Except String HookState :=
  match activate testEnv (mergeOptions noOpts) 0 0 with
  | .ok s0 => run testEnv s0 [.lookupResolves .networkError 5]
  | .error msg => .error msg

/-- A default activation whose lookup succeeds with an invalid timezone
identifier, followed by one timer tick. -/
def badTzRun : Except String HookState :=
  match activate testEnv (mergeOptions noOpts) 0 0 with
  | .ok s0 => run testEnv s0 [.lookupResolves (.success badTzResp) 0, .timerTick 1000]
  | .error msg => .error msg

/-- Options object with `fetchLocation` present but explicitly
`undefined`. -/
def undefFetchOpts : OptionsObj :=
  { autoUpdateTime := none, timeUpdateInterval := none, fetchLocation := some none }

/-- Options object disabling both the lookup and the timer. -/
def allOffOpts : OptionsObj :=
  { autoUpdateTime := some (some false), timeUpdateInterval := none,
    fetchLocation := some (some false) }

/-- Options object with `fetchLocation` explicitly `false`. -/
def fetchOffOpts : OptionsObj :=
  { autoUpdateTime := none, timeUpdateInterval := none,
    fetchLocation := some (some false) }

/-- `mountedState` after one timer tick at instant 5 (lookup still in
flight). -/
def tickedState : HookState :=
  { visitorCount := generateVisitorCount 0, location := none, currentTime := "12:00:05 AM",
    isLoading := true, error := none, isMounted := true,
    lookupInFlight := true, timerOn := true, timerDelay := some 1000 }

/-- `mountedState` after the lookup succeeds at instant 0 with the
invalid-timezone response: `setLocation` has already run when the `try`
block's `updateTime` throws, so the `catch` records the error message and
falls back to the local clock. -/
def badTzState : HookState :=
  { visitorCount := generateVisitorCount 0,
    location := some { city := "X", country := "Unknown", countryCode := "XX",
                       region := "", timezone := "Mars/Olympus" },
    currentTime := "12:00:00 AM",
    isLoading := false, error := some "Failed to load location data",
    isMounted := true, lookupInFlight := false, timerOn := true,
    timerDelay := some 1000 }

/-- The state right after activation when the lookup is disabled (either
by an explicit `false` or by an explicitly `undefined` option) but the
timer keeps its default. -/
def noFetchState : HookState :=
  { visitorCount := generateVisitorCount 0, location := none, currentTime := "12:00:00 AM",
    isLoading := false, error := none, isMounted := true,
    lookupInFlight := false, timerOn := true, timerDelay := some 1000 }

end VisitorHook

namespace VisitorHook

/-! Helper lemmas about the formatter. -/

theorem render12h_ne_empty (h m s : Nat) (pm : Bool) : render12h h m s pm ≠ "" := by
  intro hc
  have hlen := congrArg String.length hc
  have h1 : (":" : String).length = 1 := rfl
  have h2 : (" PM" : String).length = 3 := rfl
  have h3 : (" AM" : String).length = 3 := rfl
  have h4 : ("" : String).length = 0 := rfl
  cases pm <;>
    simp only [render12h, String.length_append, h1, h2, h3, h4, if_true, if_false,
      Bool.false_eq_true, ite_false, ite_true] at hlen <;> omega

theorem isValid12h_ne_empty (str : String) (h : isValid12h str) : str ≠ "" := by
  obtain ⟨a, b, c, pm, _, _, _, _, rfl⟩ := h
  exact render12h_ne_empty a b c pm

theorem format12h_valid (n : Nat) : isValid12h (format12h n) := by
  refine ⟨if n % 86400 / 3600 % 12 = 0 then 12 else n % 86400 / 3600 % 12,
         n % 86400 % 3600 / 60, n % 86400 % 60, decide (12 ≤ n % 86400 / 3600),
         ?_, ?_, ?_, ?_, rfl⟩
  · split <;> omega
  · split <;> omega
  · omega
  · omega

theorem formatTime_none (env : Env) (now : Nat) :
    formatTime env now none = .ok (format12h (fmtAt env.localOffset now)) := rfl

theorem formatTime_ok_shape (env : Env) (now : Nat) (tz : Option String) (str : String)
    (h : formatTime env now tz = .ok str) : ∃ k, str = format12h k := by
  unfold formatTime at h
  rcases tz with _ | tz
  · simp only [Except.ok.injEq] at h; exact ⟨_, h.symm⟩
  · by_cases he : tz = ""
    · simp only [he, if_true, Except.ok.injEq, ite_true] at h
      exact ⟨_, h.symm⟩
    · simp only [he, if_false, ite_false] at h
      cases ho : env.tzdb tz with
      | some off => simp only [ho, Except.ok.injEq] at h; exact ⟨_, h.symm⟩
      | none => rw [ho] at h; exact Except.noConfusion h

theorem formatTime_ok_valid (env : Env) (now : Nat) (tz : Option String) (str : String)
    (h : formatTime env now tz = .ok str) : isValid12h str := by
  obtain ⟨k, rfl⟩ := formatTime_ok_shape env now tz str h
  exact format12h_valid k

end VisitorHook

namespace VisitorHook

/-! Preservation lemmas about single steps. -/

theorem fetchDataResolve_visitorCount (env : Env) (now : Nat) (outcome : FetchOutcome)
    (s s' : HookState) (h : fetchDataResolve env now outcome s = .ok s') :
    s'.visitorCount = s.visitorCount := by
  unfold fetchDataResolve at h
  split at h
  · simp only [Except.ok.injEq] at h; subst h; rfl
  · split at h
    · split at h
      · simp only [Except.ok.injEq] at h; subst h; rfl
      · split at h
        · simp only [Except.ok.injEq] at h; subst h; rfl
        · exact Except.noConfusion h
    · split at h
      · simp only [Except.ok.injEq] at h; subst h; rfl
      · exact Except.noConfusion h

theorem step_visitorCount (env : Env) (s s' : HookState) (e : Event)
    (h : step env s e = .ok s') : s'.visitorCount = s.visitorCount := by
  cases e with
  | lookupResolves outcome now =>
      simp only [step] at h
      by_cases hf : s.lookupInFlight = false
      · rw [if_pos hf] at h
        simp only [Except.ok.injEq] at h; subst h; rfl
      · rw [if_neg hf] at h
        exact fetchDataResolve_visitorCount env now outcome
          { s with lookupInFlight := false } s' h
  | timerTick now =>
      simp only [step] at h
      by_cases ht : s.timerOn = false
      · rw [if_pos ht] at h
        simp only [Except.ok.injEq] at h; subst h; rfl
      · rw [if_neg ht] at h
        cases hft : formatTime env now (s.location.map VisitorLocation.timezone) with
        | ok t =>
            simp only [hft, Except.ok.injEq] at h; subst h; rfl
        | error msg =>
            rw [hft] at h; exact Except.noConfusion h
  | deactivate =>
      simp only [step, Except.ok.injEq] at h; subst h; rfl

theorem run_visitorCount (env : Env) (evs : List Event) :
    ∀ s s', run env s evs = .ok s' → s'.visitorCount = s.visitorCount := by
  induction evs with
  | nil =>
      intro s s' h
      simp only [run, Except.ok.injEq] at h; subst h; rfl
  | cons e es ih =>
      intro s s' h
      unfold run at h
      cases hst : step env s e with
      | ok s1 =>
          rw [hst] at h
          exact (ih s1 s' h).trans (step_visitorCount env s s1 e hst)
      | error msg => rw [hst] at h; exact Except.noConfusion h

/-- After deactivation (`isMounted` false, timer cleared) every event is
inert: the step succeeds and leaves the observable snapshot — and the
deactivated flags — unchanged. -/
theorem step_deactivated (env : Env) (s : HookState) (e : Event)
    (hm : s.isMounted = false) (ht : s.timerOn = false) :
    ∃ s', step env s e = .ok s' ∧ snapshot s' = snapshot s ∧
      s'.isMounted = false ∧ s'.timerOn = false := by
  cases e with
  | lookupResolves outcome now =>
      by_cases hf : s.lookupInFlight = false
      · exact ⟨s, by simp [step, hf], rfl, hm, ht⟩
      · refine ⟨{ s with lookupInFlight := false }, ?_, rfl, hm, ht⟩
        simp only [step, hf, if_false, ite_false, Bool.not_eq_false]
        unfold fetchDataResolve
        simp [hm]
  | timerTick now => exact ⟨s, by simp [step, ht], rfl, hm, ht⟩
  | deactivate => exact ⟨stepDeactivate s, rfl, rfl, rfl, rfl⟩

theorem run_deactivated (env : Env) (evs : List Event) :
    ∀ s, s.isMounted = false → s.timerOn = false →
      ∃ s', run env s evs = .ok s' ∧ snapshot s' = snapshot s := by
  induction evs with
  | nil => intro s hm ht; exact ⟨s, rfl, rfl⟩
  | cons e es ih =>
      intro s hm ht
      obtain ⟨s1, hst, hsnap, hm1, ht1⟩ := step_deactivated env s e hm ht
      obtain ⟨s', hrun, hsnap'⟩ := ih s1 hm1 ht1
      refine ⟨s', ?_, hsnap'.trans hsnap⟩
      unfold run
      rw [hst]
      exact hrun

/-- With no lookup in flight and no location resolved, no step can ever
produce a location or start a lookup. -/
theorem step_noLookup (env : Env) (s s' : HookState) (e : Event)
    (hl : s.location = none) (hf : s.lookupInFlight = false)
    (h : step env s e = .ok s') : s'.location = none ∧ s'.lookupInFlight = false := by
  cases e with
  | lookupResolves outcome now =>
      simp only [step] at h
      rw [if_pos hf] at h
      simp only [Except.ok.injEq] at h; subst h; exact ⟨hl, hf⟩
  | timerTick now =>
      simp only [step] at h
      by_cases ht : s.timerOn = false
      · rw [if_pos ht] at h
        simp only [Except.ok.injEq] at h; subst h; exact ⟨hl, hf⟩
      · rw [if_neg ht] at h
        cases hft : formatTime env now (s.location.map VisitorLocation.timezone) with
        | ok t =>
            simp only [hft, Except.ok.injEq] at h; subst h; exact ⟨hl, hf⟩
        | error msg =>
            rw [hft] at h; exact Except.noConfusion h
  | deactivate =>
      simp only [step, Except.ok.injEq] at h; subst h; exact ⟨hl, hf⟩

theorem run_noLookup (env : Env) (evs : List Event) :
    ∀ s s', s.location = none → s.lookupInFlight = false →
      run env s evs = .ok s' → s'.location = none ∧ s'.lookupInFlight = false := by
  induction evs with
  | nil =>
      intro s s' hl hf h
      simp only [run, Except.ok.injEq] at h; subst h; exact ⟨hl, hf⟩
  | cons e es ih =>
      intro s s' hl hf h
      unfold run at h
      cases hst : step env s e with
      | ok s1 =>
          rw [hst] at h
          obtain ⟨hl1, hf1⟩ := step_noLookup env s s1 e hl hf hst
          exact ih s1 s' hl1 hf1 h
      | error msg => rw [hst] at h; exact Except.noConfusion h

end VisitorHook

namespace VisitorHook

/-- Activation always succeeds (the mount-time `updateTime` call formats
with no location known, hence with the local timezone) and produces this
state. -/
theorem activate_eq (env : Env) (cfg : Config) (r : ℚ) (now : Nat) :
    activate env cfg r now = .ok
      { visitorCount := generateVisitorCount r,
        location := none,
        currentTime := if truthy cfg.autoUpdateTime = false then ""
                       else format12h (fmtAt env.localOffset now),
        isLoading := truthy cfg.fetchLocation,
        error := none, isMounted := true,
        lookupInFlight := truthy cfg.fetchLocation,
        timerOn := truthy cfg.autoUpdateTime,
        timerDelay := if truthy cfg.autoUpdateTime = false then none
                      else cfg.timeUpdateInterval } := by
  cases hf : truthy cfg.fetchLocation <;> cases ha : truthy cfg.autoUpdateTime <;>
    simp [activate, timerEffect, geoEffect, initialState, formatTime, hf, ha]

/-- On any of the three failure outcomes `fetchGeoLocation` returns
`null`. -/
theorem fetchGeoLocation_failed (env : Env) (outcome : FetchOutcome)
    (h : outcome.failed = true) : fetchGeoLocation env outcome = none := by
  cases outcome <;> simp_all [fetchGeoLocation, FetchOutcome.failed]

/-- The lookup continuation on a failed outcome, while mounted: location
and error untouched-then-cleared as written in the source — the fallback
branch formats the local time, `setError(null)` runs, `isLoading` is
cleared. -/
theorem fetchDataResolve_failed (env : Env) (now : Nat) (outcome : FetchOutcome)
    (s : HookState) (hfl : outcome.failed = true) (hm : s.isMounted = true) :
    fetchDataResolve env now outcome s = .ok
      { s with currentTime := format12h (fmtAt env.localOffset now),
               error := none, isLoading := false } := by
  unfold fetchDataResolve
  rw [if_neg (by simp [hm])]
  rw [fetchGeoLocation_failed env outcome hfl]
  rfl

/-- Exhaustive description of the successful results of the lookup
continuation. -/
theorem fetchDataResolve_cases (env : Env) (now : Nat) (outcome : FetchOutcome)
    (s s' : HookState) (h : fetchDataResolve env now outcome s = .ok s') :
    s' = s ∨
    (∃ loc k, s' = { s with location := some loc, currentTime := format12h k,
                            error := none, isLoading := false }) ∨
    (∃ loc k, s' = { s with location := some loc, currentTime := format12h k,
                            error := some "Failed to load location data",
                            isLoading := false }) ∨
    s' = { s with currentTime := format12h (fmtAt env.localOffset now),
                  error := none, isLoading := false } := by
  unfold fetchDataResolve at h
  split at h
  · left; simp only [Except.ok.injEq] at h; exact h.symm
  · cases hgl : fetchGeoLocation env outcome with
    | none =>
        simp only [hgl, formatTime, Except.ok.injEq] at h
        right; right; right; exact h.symm
    | some loc =>
        simp only [hgl] at h
        cases hft : formatTime env now (some loc.timezone) with
        | ok t =>
            simp only [hft, Except.ok.injEq] at h
            obtain ⟨k, rfl⟩ := formatTime_ok_shape env now _ t hft
            right; left; exact ⟨loc, k, h.symm⟩
        | error msg =>
            simp only [hft] at h
            simp only [formatTime, Except.ok.injEq] at h
            right; right; left
            exact ⟨loc, fmtAt env.localOffset now, h.symm⟩

theorem goodTime_step (env : Env) (s s' : HookState) (e : Event)
    (hg : goodTime env s) (h : step env s e = .ok s') : goodTime env s' := by
  cases e with
  | lookupResolves outcome now =>
      simp only [step] at h
      by_cases hf : s.lookupInFlight = false
      · rw [if_pos hf] at h
        simp only [Except.ok.injEq] at h; subst h; exact hg
      · rw [if_neg hf] at h
        have hg2 : goodTime env { s with lookupInFlight := false } := hg
        rcases fetchDataResolve_cases env now outcome _ s' h with
          h1 | ⟨loc, k, h1⟩ | ⟨loc, k, h1⟩ | h1 <;> subst h1
        · exact hg2
        · exact ⟨fun _ => format12h_valid k, fun hl => Option.noConfusion hl⟩
        · exact ⟨fun _ => format12h_valid k, fun hl => Option.noConfusion hl⟩
        · exact ⟨fun _ => format12h_valid _, fun _ => Or.inr ⟨now, rfl⟩⟩
  | timerTick now =>
      simp only [step] at h
      by_cases ht : s.timerOn = false
      · rw [if_pos ht] at h
        simp only [Except.ok.injEq] at h; subst h; exact hg
      · rw [if_neg ht] at h
        cases hft : formatTime env now (s.location.map VisitorLocation.timezone) with
        | ok t =>
            simp only [hft, Except.ok.injEq] at h; subst h
            refine ⟨fun _ => formatTime_ok_valid env now _ t hft, fun hl => ?_⟩
            rw [hl] at hft
            simp only [Option.map_none', formatTime, Except.ok.injEq] at hft
            exact Or.inr ⟨now, hft.symm⟩
        | error msg =>
            rw [hft] at h; exact Except.noConfusion h
  | deactivate =>
      simp only [step, Except.ok.injEq] at h; subst h
      exact hg

theorem goodTime_run (env : Env) (evs : List Event) :
    ∀ s s', goodTime env s → run env s evs = .ok s' → goodTime env s' := by
  induction evs with
  | nil =>
      intro s s' hg h
      simp only [run, Except.ok.injEq] at h; subst h; exact hg
  | cons e es ih =>
      intro s s' hg h
      unfold run at h
      cases hst : step env s e with
      | ok s1 =>
          rw [hst] at h
          exact ih s1 s' (goodTime_step env s s1 e hg hst) h
      | error msg => rw [hst] at h; exact Except.noConfusion h

/-- A fresh activation satisfies the clock invariant whenever at least one
of the lookup or the timer is enabled. -/
theorem activate_goodTime (env : Env) (cfg : Config) (r : ℚ) (now : Nat) (s0 : HookState)
    (hcfg : truthy cfg.fetchLocation = true ∨ truthy cfg.autoUpdateTime = true)
    (h : activate env cfg r now = .ok s0) : goodTime env s0 := by
  rw [activate_eq env cfg r now] at h
  simp only [Except.ok.injEq] at h
  subst h
  cases hf : truthy cfg.fetchLocation with
  | true =>
      cases ha : truthy cfg.autoUpdateTime with
      | true => exact ⟨fun _ => format12h_valid _, fun _ => Or.inr ⟨now, rfl⟩⟩
      | false => exact ⟨fun hl => Bool.noConfusion hl, fun _ => Or.inl rfl⟩
  | false =>
      cases ha : truthy cfg.autoUpdateTime with
      | true => exact ⟨fun _ => format12h_valid _, fun _ => Or.inr ⟨now, rfl⟩⟩
      | false =>
          rcases hcfg with h1 | h1
          · rw [hf] at h1; exact Bool.noConfusion h1
          · rw [ha] at h1; exact Bool.noConfusion h1

end VisitorHook

namespace VisitorHook

/-- C1 counterexample: with the default configuration and a lookup that
fails with a network error, the settled snapshot has `location` absent,
`isLoading` false and `currentTime` formatted for the local timezone — but
`error` is null rather than a non-empty string: the failure is swallowed
inside `fetchGeoLocation`, which returns null, and `fetchData` then runs
`setError(null)`; its error-setting `catch` branch never executes for a
lookup failure. -/
theorem C1_counterexample :
    ∃ s, failRun = .ok s ∧ s.location = none ∧ s.isLoading = false ∧
      s.currentTime = "12:00:05 AM" ∧ s.error = none ∧ ¬∃ msg, s.error = some msg :=
  ⟨failedState, rfl, rfl, rfl, rfl, rfl, fun ⟨_, hmsg⟩ => Option.noConfusion hmsg⟩

/-- C1 amended: for every activation whose outbound lookup fails (network
error, non-success HTTP status, or parse error), the settled snapshot has
`location` absent, `error` null (not a non-empty string), `isLoading`
false, and `currentTime` formatted using the local system timezone. -/
theorem C1_theorem (env : Env) (s s' : HookState) (outcome : FetchOutcome) (now : Nat)
    (hfl : outcome.failed = true) (hm : s.isMounted = true)
    (hf : s.lookupInFlight = true) (hl : s.location = none)
    (h : step env s (.lookupResolves outcome now) = .ok s') :
    s'.location = none ∧ s'.error = none ∧ s'.isLoading = false ∧
      s'.currentTime = format12h (fmtAt env.localOffset now) := by
  simp only [step] at h
  rw [if_neg (by simp [hf])] at h
  rw [fetchDataResolve_failed env now outcome { s with lookupInFlight := false } hfl hm] at h
  simp only [Except.ok.injEq] at h
  subst h
  exact ⟨hl, rfl, rfl, rfl⟩

/-- C1 witness: the amended statement at a concrete failing run. -/
theorem C1_witness :
    failedState.location = none ∧ failedState.error = none ∧
      failedState.isLoading = false ∧
      failedState.currentTime = format12h (fmtAt testEnv.localOffset 5) :=
  C1_theorem testEnv mountedState failedState .networkError 5 rfl rfl rfl rfl rfl

/-- C2: deactivation stops the repeating timer and does not itself change
the snapshot; afterwards every event — including the delayed resolution of
the still-in-flight lookup, successful or failed, and further timer
ticks — succeeds as a no-op on the observable snapshot. -/
theorem C2_theorem (env : Env) (s s1 : HookState)
    (h : step env s .deactivate = .ok s1) :
    s1.timerOn = false ∧ snapshot s1 = snapshot s ∧
      ∀ evs, ∃ s2, run env s1 evs = .ok s2 ∧ snapshot s2 = snapshot s1 := by
  simp only [step, Except.ok.injEq] at h
  subst h
  exact ⟨rfl, rfl, fun evs => run_deactivated env evs _ rfl rfl⟩

/-- C2 witness: deactivating the concrete mounted activation and then
delivering a delayed successful lookup resolution plus a timer tick leaves
the snapshot untouched. -/
theorem C2_witness :
    ∃ s2, run testEnv (stepDeactivate mountedState)
        [.lookupResolves (.success parisResp) 7, .timerTick 8] = .ok s2 ∧
      snapshot s2 = snapshot (stepDeactivate mountedState) :=
  (C2_theorem testEnv mountedState (stepDeactivate mountedState) rfl).2.2
    [.lookupResolves (.success parisResp) 7, .timerTick 8]

/-- C3 counterexample: on a successful response with `region` and
`timezone` absent, the parsed location's `region` is the empty string and
its `timezone` is the local system timezone — neither is the documented
"Unknown" placeholder the claim requires for absent string fields. -/
theorem C3_counterexample :
    fetchGeoLocation testEnv (.success noRegionResp) =
      some { city := "A", country := "B", countryCode := "C",
             region := "", timezone := "UTC" } ∧
    ("" : String) ≠ "Unknown" ∧ ("UTC" : String) ≠ "Unknown" :=
  ⟨rfl, by decide, by decide⟩

/-- C3 amended: for every successful lookup every field of the produced
location is populated (never absent): `city` and `country` equal the
response value when present and non-empty and default to "Unknown";
`countryCode` likewise defaults to "XX"; but `region` defaults to the
empty string and `timezone` to the local system timezone (a present but
empty response field also maps to the default, by JavaScript `||`). -/
theorem C3_theorem (env : Env) (data : GeoResponse) :
    ∃ loc, fetchGeoLocation env (.success data) = some loc ∧
      (∀ v, data.city = some v → v ≠ "" → loc.city = v) ∧
      ((data.city = none ∨ data.city = some "") → loc.city = "Unknown") ∧
      (∀ v, data.country_name = some v → v ≠ "" → loc.country = v) ∧
      ((data.country_name = none ∨ data.country_name = some "") → loc.country = "Unknown") ∧
      (∀ v, data.country_code = some v → v ≠ "" → loc.countryCode = v) ∧
      ((data.country_code = none ∨ data.country_code = some "") → loc.countryCode = "XX") ∧
      (∀ v, data.region = some v → v ≠ "" → loc.region = v) ∧
      ((data.region = none ∨ data.region = some "") → loc.region = "") ∧
      (∀ v, data.timezone = some v → v ≠ "" → loc.timezone = v) ∧
      ((data.timezone = none ∨ data.timezone = some "") → loc.timezone = env.localTimezone) := by
  refine ⟨_, rfl, ?_, ?_, ?_, ?_, ?_, ?_, ?_, ?_, ?_, ?_⟩ <;>
    first
      | (intro v hv hne; simp [fetchGeoLocation, jsOr, hv, hne])
      | (rintro (hv | hv) <;> simp [fetchGeoLocation, jsOr, hv])

/-- C3 witness: the amended statement at the concrete response missing
`region` and `timezone`. -/
theorem C3_witness :
    ∃ loc, fetchGeoLocation testEnv (.success noRegionResp) = some loc ∧
      loc.city = "A" ∧ loc.region = "" ∧ loc.timezone = testEnv.localTimezone := by
  obtain ⟨loc, h0, c1, _, _, _, _, _, _, c8, _, c10⟩ := C3_theorem testEnv noRegionResp
  exact ⟨loc, h0, c1 "A" rfl (by decide), c8 (Or.inl rfl), c10 (Or.inl rfl)⟩

/-- C4 counterexample: with both `fetchLocation` and `autoUpdateTime`
disabled, `isLoading` is false immediately after activation while
`currentTime` is the empty string — not a valid formatted time string. -/
theorem C4_counterexample :
    ∃ s0, activate testEnv (mergeOptions allOffOpts) 0 0 = .ok s0 ∧
      s0.isLoading = false ∧ s0.currentTime = "" :=
  ⟨_, rfl, rfl, rfl⟩

/-- C4 amended: provided at least one of `fetchLocation` and
`autoUpdateTime` is enabled, once `isLoading` is false the clock string is
a valid non-empty 12-hour reading, and as long as no location is known it
is formatted for the local system timezone. -/
theorem C4_theorem (env : Env) (cfg : Config) (r : ℚ) (now : Nat) (evs : List Event)
    (s0 s : HookState)
    (hcfg : truthy cfg.fetchLocation = true ∨ truthy cfg.autoUpdateTime = true)
    (ha : activate env cfg r now = .ok s0)
    (hr : run env s0 evs = .ok s) (hl : s.isLoading = false) :
    isValid12h s.currentTime ∧ s.currentTime ≠ "" ∧
      (s.location = none → localShaped env s.currentTime) := by
  have hg := goodTime_run env evs s0 s (activate_goodTime env cfg r now s0 hcfg ha) hr
  have hv := hg.1 hl
  refine ⟨hv, isValid12h_ne_empty _ hv, fun hln => ?_⟩
  rcases hg.2 hln with he | hsh
  · exact absurd he (isValid12h_ne_empty _ hv)
  · exact hsh

/-- C4 witness: the amended statement on the concrete failing run. -/
theorem C4_witness :
    isValid12h failedState.currentTime ∧ failedState.currentTime ≠ "" ∧
      (failedState.location = none → localShaped testEnv failedState.currentTime) :=
  C4_theorem testEnv (mergeOptions noOpts) 0 0 [.lookupResolves .networkError 5]
    mountedState failedState (Or.inl rfl) rfl rfl rfl

/-- C5: the visitor count is synthesized once at activation as
1247 plus the floor of `Math.random` times 51, so it lies in
[1247, 1297] for every random sample in [0, 1); the activation stores
exactly that value and no later event ever changes it. -/
theorem C5_theorem :
    (∀ r : ℚ, 0 ≤ r → r < 1 →
       1247 ≤ generateVisitorCount r ∧ generateVisitorCount r ≤ 1297) ∧
    (∀ env cfg r now s0, activate env cfg r now = .ok s0 →
       s0.visitorCount = generateVisitorCount r) ∧
    (∀ env s evs s', run env s evs = .ok s' → s'.visitorCount = s.visitorCount) := by
  refine ⟨?_, ?_, ?_⟩
  · intro r h0 h1
    have key : generateVisitorCount r = 1247 + ⌊r * 51⌋ := by
      unfold generateVisitorCount randomInRange
      norm_num
    have hfl0 : (0 : ℤ) ≤ ⌊r * 51⌋ :=
      Int.floor_nonneg.mpr (mul_nonneg h0 (by norm_num))
    have hfl1 : ⌊r * 51⌋ < 51 := by
      apply Int.floor_lt.mpr
      push_cast
      nlinarith
    rw [key]
    omega
  · intro env cfg r now s0 h
    rw [activate_eq env cfg r now] at h
    simp only [Except.ok.injEq] at h
    subst h
    rfl
  · intro env s evs s' h
    exact run_visitorCount env evs s s' h

/-- C5 witness: the bounds at a concrete random sample and the stability
along a concrete run. -/
theorem C5_witness :
    (1247 ≤ generateVisitorCount (1 / 2) ∧ generateVisitorCount (1 / 2) ≤ 1297) ∧
    mountedState.visitorCount = generateVisitorCount 0 ∧
    failedState.visitorCount = mountedState.visitorCount :=
  ⟨C5_theorem.1 (1 / 2) (by norm_num) (by norm_num),
   C5_theorem.2.1 testEnv (mergeOptions noOpts) 0 0 mountedState rfl,
   C5_theorem.2.2 testEnv mountedState [.lookupResolves .networkError 5] failedState rfl⟩

end VisitorHook

namespace VisitorHook

/-- C6: if the lookup returns the Paris response, the parsed location is
exactly Paris/France/FR/IDF/Europe-Paris, the settled snapshot stores it
with the clock formatted for Europe/Paris, and every subsequent timer tick
keeps formatting the clock for Europe/Paris. -/
theorem C6_theorem (env : Env) (off : Int) (s : HookState) (now : Nat)
    (hz : env.tzdb "Europe/Paris" = some off)
    (hm : s.isMounted = true) (hf : s.lookupInFlight = true) (ht : s.timerOn = true) :
    fetchGeoLocation env (.success parisResp) = some parisLoc ∧
    ∃ s1, step env s (.lookupResolves (.success parisResp) now) = .ok s1 ∧
      s1.location = some parisLoc ∧
      s1.currentTime = format12h (fmtAt off now) ∧
      s1.error = none ∧ s1.isLoading = false ∧
      ∀ t s2, step env s1 (.timerTick t) = .ok s2 →
        s2.currentTime = format12h (fmtAt off t) := by
  have hfetch : fetchGeoLocation env (.success parisResp) = some parisLoc := rfl
  have hft : ∀ t, formatTime env t (some parisLoc.timezone) = .ok (format12h (fmtAt off t)) := by
    intro t
    show formatTime env t (some "Europe/Paris") = _
    simp only [formatTime]
    rw [if_neg (by decide), hz]
  refine ⟨hfetch,
    { s with lookupInFlight := false, location := some parisLoc,
             currentTime := format12h (fmtAt off now), error := none, isLoading := false },
    ?_, rfl, rfl, rfl, rfl, ?_⟩
  · simp only [step]
    rw [if_neg (by simp [hf])]
    unfold fetchDataResolve
    rw [if_neg (by simp [hm])]
    simp only [hfetch, hft now]
  · intro t s2 h2
    simp only [step] at h2
    rw [if_neg (by simp [ht])] at h2
    simp only [Option.map_some', hft t, Except.ok.injEq] at h2
    subst h2
    rfl

/-- C6 witness: the Paris scenario run in the concrete environment. -/
theorem C6_witness :
    fetchGeoLocation testEnv (.success parisResp) = some parisLoc ∧
    ∃ s1, step testEnv mountedState (.lookupResolves (.success parisResp) 3600) = .ok s1 ∧
      s1.location = some parisLoc ∧ s1.currentTime = format12h (fmtAt 120 3600) := by
  obtain ⟨h0, s1, h1, h2, h3, _⟩ := C6_theorem testEnv 120 mountedState 3600 rfl rfl rfl rfl
  exact ⟨h0, s1, h1, h2, h3⟩

/-- C7 counterexample: after a successful lookup whose response carried an
invalid timezone identifier, a timer tick does not recompute
`currentTime` — the formatting call throws instead, leaving the clock
string unchanged. -/
theorem C7_counterexample :
    step testEnv badTzState (.timerTick 1000) =
      .error "Invalid time zone specified: Mars/Olympus" ∧
    (match activate testEnv (mergeOptions noOpts) 0 0 with
      | .ok s0 => run testEnv s0 [.lookupResolves (.success badTzResp) 0]
      | .error msg => .error msg) = .ok badTzState :=
  ⟨rfl, rfl⟩

/-- C7 amended: the merged configuration defaults the tick period to
1000 ms; with `autoUpdateTime` enabled activation installs the repeating
timer with the configured period; and every tick on which the formatter
does not throw — in particular every tick taken with the local timezone or
a database-valid identifier — recomputes `currentTime` through
`formatTime` with the presently-known timezone (the resolved location's if
available, else the local one), yielding a valid 12-hour `hh:mm:ss`
reading and changing no other snapshot field. -/
theorem C7_theorem :
    (mergeOptions noOpts).timeUpdateInterval = some 1000 ∧
    (∀ env cfg r now s0, truthy cfg.autoUpdateTime = true →
       activate env cfg r now = .ok s0 →
       s0.timerOn = true ∧ s0.timerDelay = cfg.timeUpdateInterval) ∧
    (∀ env s now s', s.timerOn = true → step env s (.timerTick now) = .ok s' →
       formatTime env now (s.location.map VisitorLocation.timezone) = .ok s'.currentTime ∧
       isValid12h s'.currentTime ∧
       s'.location = s.location ∧ s'.isLoading = s.isLoading ∧
       s'.error = s.error ∧ s'.visitorCount = s.visitorCount ∧
       s'.timerOn = true ∧ s'.timerDelay = s.timerDelay) := by
  refine ⟨rfl, ?_, ?_⟩
  · intro env cfg r now s0 hauto h
    rw [activate_eq env cfg r now] at h
    simp only [Except.ok.injEq] at h
    subst h
    exact ⟨hauto, by simp [hauto]⟩
  · intro env s now s' ht h
    simp only [step] at h
    rw [if_neg (by simp [ht])] at h
    cases hft : formatTime env now (s.location.map VisitorLocation.timezone) with
    | ok t =>
        simp only [hft, Except.ok.injEq] at h
        subst h
        exact ⟨rfl, formatTime_ok_valid env now _ t hft, rfl, rfl, rfl, rfl, ht, rfl⟩
    | error msg => rw [hft] at h; exact Except.noConfusion h

/-- C7 witness: the default period, the concrete activation's timer, and
one concrete tick. -/
theorem C7_witness :
    (mergeOptions noOpts).timeUpdateInterval = some 1000 ∧
    (mountedState.timerOn = true ∧
       mountedState.timerDelay = (mergeOptions noOpts).timeUpdateInterval) ∧
    (formatTime testEnv 5 (Option.map VisitorLocation.timezone mountedState.location) =
       .ok tickedState.currentTime ∧ isValid12h tickedState.currentTime) := by
  obtain ⟨h1, h2, h3⟩ := C7_theorem
  obtain ⟨ha, hb, _⟩ := h3 testEnv mountedState 5 tickedState rfl rfl
  exact ⟨h1, h2 testEnv (mergeOptions noOpts) 0 0 mountedState rfl rfl, ha, hb⟩

/-- C8: with `fetchLocation` disabled, activation clears `isLoading`
immediately, no outbound request is ever in flight, and `location` stays
absent over every possible sequence of later events. -/
theorem C8_theorem (env : Env) (cfg : Config) (r : ℚ) (now : Nat) (s0 : HookState)
    (hf : truthy cfg.fetchLocation = false)
    (ha : activate env cfg r now = .ok s0) :
    s0.isLoading = false ∧ s0.lookupInFlight = false ∧ s0.location = none ∧
      ∀ evs s', run env s0 evs = .ok s' → s'.location = none := by
  rw [activate_eq env cfg r now] at ha
  simp only [Except.ok.injEq] at ha
  subst ha
  exact ⟨hf, hf, rfl, fun evs s' hr => (run_noLookup env evs _ s' rfl hf hr).1⟩

/-- C8 witness: the concrete activation with `fetchLocation: false`,
followed by a tick and a deactivation. -/
theorem C8_witness :
    noFetchState.isLoading = false ∧ noFetchState.lookupInFlight = false ∧
      noFetchState.location = none ∧
      (run testEnv noFetchState [.timerTick 3, .deactivate]).map HookState.location =
        .ok none := by
  obtain ⟨h1, h2, h3, h4⟩ :=
    C8_theorem testEnv (mergeOptions fetchOffOpts) 0 0 noFetchState rfl rfl
  refine ⟨h1, h2, h3, ?_⟩
  have hrun : run testEnv noFetchState [.timerTick 3, .deactivate] =
      .ok (stepDeactivate { noFetchState with currentTime := "12:00:03 AM" }) := rfl
  have h5 := h4 [.timerTick 3, .deactivate] _ hrun
  rw [hrun]
  simp [Except.map, h5]

/-- C9 counterexample: a successful lookup whose response carries an
invalid timezone identifier makes the next timer tick throw out of the
hook (the interval callback calls `formatTime` with no handler around
it) — an exception does propagate to the caller. -/
theorem C9_counterexample :
    badTzRun = .error "Invalid time zone specified: Mars/Olympus" := rfl

/-- C9 amended: a lookup failure is indeed non-fatal — every failing
resolution settles normally, every tick taken while no location is known
formats with the local timezone and cannot throw, and deactivation never
throws; but a successful response whose timezone string is an invalid
identifier later makes a timer tick throw out of the hook. -/
theorem C9_theorem :
    (∀ env s outcome now, outcome.failed = true →
       ∃ s', step env s (.lookupResolves outcome now) = .ok s') ∧
    (∀ env s now, s.location = none →
       ∃ s', step env s (.timerTick now) = .ok s') ∧
    (∀ env s, ∃ s', step env s .deactivate = .ok s') := by
  refine ⟨?_, ?_, ?_⟩
  · intro env s outcome now hfl
    by_cases hf : s.lookupInFlight = false
    · exact ⟨s, by simp [step, hf]⟩
    · cases hm : s.isMounted with
      | false =>
          refine ⟨{ s with lookupInFlight := false }, ?_⟩
          simp only [step]
          rw [if_neg hf]
          unfold fetchDataResolve
          rw [if_pos (by simp [hm])]
      | true =>
          have hstep := fetchDataResolve_failed env now outcome
            { s with lookupInFlight := false } hfl hm
          refine ⟨{ s with lookupInFlight := false, currentTime := format12h (fmtAt env.localOffset now), error := none, isLoading := false }, ?_⟩
          simp only [step]
          rw [if_neg hf]
          exact hstep
  · intro env s now hl
    by_cases ht : s.timerOn = false
    · exact ⟨s, by simp [step, ht]⟩
    · refine ⟨{ s with currentTime := format12h (fmtAt env.localOffset now) }, ?_⟩
      simp only [step]
      rw [if_neg ht, hl]
      rfl
  · exact fun env s => ⟨stepDeactivate s, rfl⟩

/-- C9 witness: the amended statement at concrete states. -/
theorem C9_witness :
    (∃ s', step testEnv mountedState (.lookupResolves .parseError 4) = .ok s') ∧
    (∃ s', step testEnv mountedState (.timerTick 9) = .ok s') ∧
    (∃ s', step testEnv mountedState .deactivate = .ok s') := by
  obtain ⟨h1, h2, h3⟩ := C9_theorem
  exact ⟨h1 testEnv mountedState .parseError 4 rfl,
         h2 testEnv mountedState 9 rfl,
         h3 testEnv mountedState⟩

/-- C10: a recognized key present with the explicit value `undefined`
survives the object-spread merge, overriding the default `true` with
`undefined`; `undefined` is falsy, so the activation behaves exactly as if
`fetchLocation` were `false`: `isLoading` clears immediately, no lookup is
issued, and no location ever appears. -/
theorem C10_theorem :
    (mergeOptions undefFetchOpts).fetchLocation = none ∧
    truthy (mergeOptions undefFetchOpts).fetchLocation = false ∧
    truthy (mergeOptions noOpts).fetchLocation = true ∧
    (∀ env r now s0, activate env (mergeOptions undefFetchOpts) r now = .ok s0 →
       s0.isLoading = false ∧ s0.lookupInFlight = false ∧
       ∀ evs s', run env s0 evs = .ok s' → s'.location = none) := by
  refine ⟨rfl, rfl, rfl, ?_⟩
  intro env r now s0 h
  rw [activate_eq] at h
  simp only [Except.ok.injEq] at h
  subst h
  exact ⟨rfl, rfl, fun evs s' hr => (run_noLookup env evs _ s' rfl rfl hr).1⟩

/-- C10 witness: the concrete activation with an explicitly-`undefined`
`fetchLocation`. -/
theorem C10_witness :
    noFetchState.isLoading = false ∧ noFetchState.lookupInFlight = false := by
  obtain ⟨_, _, _, h4⟩ := C10_theorem
  obtain ⟨h5, h6, _⟩ := h4 testEnv 0 0 noFetchState rfl
  exact ⟨h5, h6⟩

end VisitorHook
